import Mathlib

/-!
Verification of the `cargo-wix` CLI shell (`src/main.rs`) against its
natural-language specification.

The embedding models the flag set parsed by the argument parser for the
`wix` subcommand, the validation rules declared on the arguments
(`requires` constraints), the dispatch in `main` to one of the three
operations (template initialization, template printing, the build
pipeline), the global logger installation, and the exit/stderr behaviour
on success and on error.
-/

namespace CargoWix

/-- The flag set of the `wix` subcommand as declared in `src/main.rs`
(lines 46-96): value flags are `Option String`, presence flags are
`Bool`, `verbose` counts occurrences, `input` is the optional positional
argument. -/
structure Flags where
  binary_name : Option String
  description : Option String
  force : Bool
  init : Bool
  manufacturer : Option String
  no_capture : Bool
  print_template : Bool
  product_name : Option String
  sign : Bool
  timestamp : Option String
  verbose : Nat
  input : Option String
deriving DecidableEq, Repr

/-- Validation declared on the arguments in `src/main.rs`: `force`
carries `.requires("init")` (line 59) and `timestamp` carries
`.requires("sign")` (line 88).  The parser accepts a flag set only when
these constraints hold. -/
def argsValid (m : Flags) : Bool :=
  (!m.force || m.init) && (m.timestamp.isNone || m.sign)

/-- The configuration assembled for the build pipeline by the builder
chain `Wix::new().binary_name(..)...timestamp(..)` in `src/main.rs`
lines 116-124. -/
structure WixConfig where
  binary_name : Option String
  capture_output : Bool
  description : Option String
  input : Option String
  manufacturer : Option String
  product_name : Option String
  sign : Bool
  timestamp : Option String
deriving DecidableEq, Repr

/-- The builder chain of `src/main.rs` lines 116-124: every override is
taken from the parsed flags unchanged; `capture_output` is the negation
of the `no-capture` presence (line 118). -/
def buildConfig (m : Flags) : WixConfig :=
  { binary_name := m.binary_name
    capture_output := !m.no_capture
    description := m.description
    input := m.input
    manufacturer := m.manufacturer
    product_name := m.product_name
    sign := m.sign
    timestamp := m.timestamp }

/-- The three operations `main` can dispatch to. -/
inductive Operation where
  | init (force : Bool)
  | printTemplate
  | build (cfg : WixConfig)
deriving DecidableEq, Repr

/-- The dispatch of `src/main.rs` lines 111-126: `init` first,
then `print-template`, otherwise the build pipeline. -/
def dispatch (m : Flags) : Operation :=
  if m.init then Operation.init m.force
  else if m.print_template then Operation.printTemplate
  else Operation.build (buildConfig m)

/-- The logger configuration assembled in `src/main.rs` lines 99-110:
with verbosity above 3 line numbers and module paths are enabled,
otherwise module paths are disabled; the occurrence count becomes the
verbosity and levels are always shown. -/
structure LoggerConfig where
  line_numbers : Bool
  module_path : Bool
  verbosity : Nat
  level : Bool
deriving DecidableEq, Repr

/-- `src/main.rs` lines 99-110, the value passed to `init()`. -/
def setupLogger (verbosity : Nat) : LoggerConfig :=
  if verbosity > 3 then
    { line_numbers := true, module_path := true, verbosity := verbosity, level := true }
  else
    { line_numbers := false, module_path := false, verbosity := verbosity, level := true }

/-- The process-global logger singleton mutated by `loggerv`'s `init()`
(`src/main.rs` line 109). -/
inductive GlobalLogger where
  | uninstalled
  | installed (cfg : LoggerConfig)
deriving DecidableEq, Repr

/-- `main` after argument parsing: installs the global logger from the
`verbose` occurrence count, then dispatches.  Returns the mutated global
logger state alongside the dispatched operation. -/
def runMain (m : Flags) : GlobalLogger × Operation :=
  (GlobalLogger.installed (setupLogger m.verbose), dispatch m)

/-- Modelled from the spec: the error taxonomy of the `cargo_wix`
library (its source is not under `src/`; only `main.rs` is).  Section 7
lists the kinds `MissingMetadata`, `UnresolvedPlaceholder`,
`SourceNotFound`, `FileExists`, `ToolNotFound`, `CompileFailed`,
`LinkFailed`, `SignFailed` and a generic `Io` kind. -/
inductive ErrorKind where
  | missingMetadata
  | unresolvedPlaceholder
  | sourceNotFound
  | fileExists
  | toolNotFound
  | compileFailed
  | linkFailed
  | signFailed
  | io
deriving DecidableEq, Repr

/-- Modelled from the spec: the library's `Error::code` (not under
`src/`), "a distinct non-zero code per error kind (stable mapping from
error kind → code)". -/
def errorCode : ErrorKind → Int
  | ErrorKind.missingMetadata => 1
  | ErrorKind.unresolvedPlaceholder => 2
  | ErrorKind.sourceNotFound => 3
  | ErrorKind.fileExists => 4
  | ErrorKind.toolNotFound => 5
  | ErrorKind.compileFailed => 6
  | ErrorKind.linkFailed => 7
  | ErrorKind.signFailed => 8
  | ErrorKind.io => 9

/-- Modelled from the spec: an error value of the `cargo_wix` library
(not under `src/`).  `main.rs` consumes three views of it: `e.code()`
(here `errorCode kind`), `e.description()` (here `descr`) and the
`Display` rendering `{}` (here `message`). -/
structure WixError where
  kind : ErrorKind
  descr : String
  message : String

/-- The escape character that starts every ANSI colour sequence. -/
def esc : Char := '\x1b'

/-- `ansi_term`'s `Colour::Fixed(9).paint(s).to_string()` (bright red,
`src/main.rs` lines 29 and 134): the text wrapped in the colour-on and
colour-off escape sequences. -/
def paintRed (s : String) : String := "\x1b[38;5;9m" ++ s ++ "\x1b[0m"

/-- The tag built at `src/main.rs` line 132:
`format!("Error[{}] ({})", e.code(), e.description())`. -/
def errorTag (e : WixError) : String :=
  "Error[" ++ toString (errorCode e.kind) ++ "] (" ++ e.descr ++ ")"

/-- The full line written to standard error by `src/main.rs` lines
131-137: the tag (painted red exactly when standard error is an
interactive terminal), a colon, the `Display` rendering of the error,
and the newline appended by `writeln!`. -/
def stderrLine (ttyStderr : Bool) (e : WixError) : String :=
  (if ttyStderr then paintRed (errorTag e) else errorTag e) ++ ": " ++ e.message ++ "\n"

/-- The observable outcome of a `main` run: either a panic, or a process
exit with a code and the bytes written to standard error. -/
inductive MainOutcome where
  | panicked
  | exited (code : Int) (stderrOut : String)
deriving DecidableEq, Repr

/-- `main` end to end (`src/main.rs` lines 98-140), with the outcome of
the dispatched library operation abstracted as `opResult`:
`subcommand_matches("wix")` is unwrapped (panicking on `none`, line 98),
then the result of the dispatched operation is matched: `Ok` exits with
code 0 and nothing on standard error, `Err(e)` writes the formatted line
and exits with `e.code()`. -/
def runFull (sub : Option Flags) (ttyStderr : Bool)
    (opResult : Operation → Except WixError Unit) : MainOutcome :=
  match sub with
  | none => MainOutcome.panicked
  | some m =>
    match opResult (dispatch m) with
    | Except.ok _ => MainOutcome.exited 0 ""
    | Except.error e => MainOutcome.exited (errorCode e.kind) (stderrLine ttyStderr e)

/-- A flag set with every flag absent: `cargo wix` with no arguments. -/
def flagsNone : Flags :=
  { binary_name := none, description := none, force := false, init := false,
    manufacturer := none, no_capture := false, print_template := false,
    product_name := none, sign := false, timestamp := none, verbose := 0,
    input := none }

/-- A flag set with both `--init` and `--print-template` present. -/
def flagsInitPrint : Flags := { flagsNone with init := true, print_template := true }

/-- A flag set with `--timestamp` present but `--sign` absent. -/
def flagsTsOnly : Flags := { flagsNone with timestamp := some "http://timestamp.comodoca.com" }

/-- A flag set with `--force` present but `--init` absent. -/
def flagsForceOnly : Flags := { flagsNone with force := true }

/-- A flag set with every override supplied. -/
def flagsAll : Flags :=
  { binary_name := some "app", description := some "An example app",
    force := false, init := false, manufacturer := some "Acme",
    no_capture := true, print_template := false, product_name := some "App",
    sign := true, timestamp := some "http://timestamp.comodoca.com",
    verbose := 2, input := some "custom.wxs" }

/-- A flag set differing from `flagsNone` only in verbosity. -/
def flagsVerbose5 : Flags := { flagsNone with verbose := 5 }

end CargoWix

namespace CargoWix

/-- C1: for every parsed flag set the CLI dispatches to exactly one of
the three operations: with `init` present, template initialization runs
and the build pipeline is never reached; otherwise with
`print-template` present, template printing runs and the build pipeline
is never reached; otherwise the build pipeline runs. -/
theorem dispatch_exactly_one (m : Flags) :
    (m.init = true → dispatch m = Operation.init m.force ∧
      ∀ cfg, dispatch m ≠ Operation.build cfg) ∧
    (m.init = false → m.print_template = true →
      dispatch m = Operation.printTemplate ∧
      ∀ cfg, dispatch m ≠ Operation.build cfg) ∧
    (m.init = false → m.print_template = false →
      dispatch m = Operation.build (buildConfig m)) := by
  refine ⟨?_, ?_, ?_⟩
  · intro h
    simp [dispatch, h]
  · intro h1 h2
    simp [dispatch, h1, h2]
  · intro h1 h2
    simp [dispatch, h1, h2]

/-- Witness for C1 at a concrete flag set with neither short-circuit
flag present: the build pipeline is dispatched. -/
theorem dispatch_exactly_one_witness :
    dispatch flagsNone = Operation.build (buildConfig flagsNone) :=
  (dispatch_exactly_one flagsNone).2.2 rfl rfl

/-- C9: with both `init` and `print-template` present, `init` takes
precedence and template printing does not run. -/
theorem init_takes_precedence (m : Flags) (h1 : m.init = true)
    (_h2 : m.print_template = true) :
    dispatch m = Operation.init m.force ∧ dispatch m ≠ Operation.printTemplate := by
  constructor
  · simp [dispatch, h1]
  · simp [dispatch, h1]

/-- Witness for C9 at the concrete flag set carrying both flags. -/
theorem init_takes_precedence_witness :
    dispatch flagsInitPrint = Operation.init flagsInitPrint.force ∧
    dispatch flagsInitPrint ≠ Operation.printTemplate :=
  init_takes_precedence flagsInitPrint rfl rfl

/-- C4: the capture-output setting handed to the build pipeline is the
negation of the `no-capture` presence, so it defaults to true and is
false exactly when `--nocapture` is given; and this configuration is
what dispatch passes to the pipeline. -/
theorem capture_output_default (m : Flags) :
    (buildConfig m).capture_output = !m.no_capture ∧
    ((buildConfig m).capture_output = true ↔ m.no_capture = false) ∧
    (m.init = false → m.print_template = false →
      dispatch m = Operation.build (buildConfig m)) := by
  refine ⟨rfl, ?_, ?_⟩
  · cases h : m.no_capture <;> simp [buildConfig, h]
  · intro h1 h2
    simp [dispatch, h1, h2]

/-- Witness for C4: with `--nocapture` given, the pipeline receives
`capture_output = false`; the hypotheses of the dispatch conjunct are
discharged at `flagsNone`. -/
theorem capture_output_default_witness :
    dispatch flagsNone = Operation.build (buildConfig flagsNone) ∧
    (buildConfig { flagsNone with no_capture := true }).capture_output = false :=
  ⟨(capture_output_default flagsNone).2.2 rfl rfl,
    (capture_output_default { flagsNone with no_capture := true }).1⟩

/-- C5: `timestamp` requires `sign` at the argument parser: a flag set
with a timestamp and no sign flag fails validation, and any validated
flag set that reaches the build pipeline with a timestamp also carries
the sign flag. -/
theorem timestamp_requires_sign (m : Flags) :
    (m.timestamp.isSome = true → m.sign = false → argsValid m = false) ∧
    (argsValid m = true → ∀ cfg, dispatch m = Operation.build cfg →
      cfg.timestamp.isSome = true → cfg.sign = true) := by
  constructor
  · intro ht hs
    cases htm : m.timestamp with
    | none => rw [htm] at ht; simp at ht
    | some url => simp [argsValid, htm, hs]
  · intro hv cfg hd ht
    by_cases hi : m.init
    · simp [dispatch, hi] at hd
    · by_cases hp : m.print_template
      · simp [dispatch, hi, hp] at hd
      · simp [dispatch, hi, hp] at hd
        subst hd
        simp [buildConfig] at ht ⊢
        simp [argsValid] at hv
        cases htm : m.timestamp with
        | none => rw [htm] at ht; simp at ht
        | some url => rw [htm] at hv; simpa using hv.2

/-- Witness for C5: the concrete flag set with a timestamp URL and no
sign flag is rejected by the parser-level validation. -/
theorem timestamp_requires_sign_witness : argsValid flagsTsOnly = false :=
  (timestamp_requires_sign flagsTsOnly).1 rfl rfl

/-- C6: `force` requires `init` at the argument parser, `force` is
consumed by the init operation, and when `init` is absent the dispatch
result does not depend on `force` at all (template printing and the
build pipeline never see it). -/
theorem force_requires_init (m : Flags) :
    (m.force = true → m.init = false → argsValid m = false) ∧
    (m.init = true → dispatch m = Operation.init m.force) ∧
    (m.init = false → ∀ b, dispatch { m with force := b } = dispatch m) := by
  refine ⟨?_, ?_, ?_⟩
  · intro hf hi
    simp [argsValid, hf, hi]
  · intro hi
    simp [dispatch, hi]
  · intro hi b
    by_cases hp : m.print_template <;> simp [dispatch, buildConfig, hi, hp]

/-- Witness for C6: the concrete flag set with `--force` and no
`--init` fails validation, and toggling force without init leaves the
dispatch unchanged. -/
theorem force_requires_init_witness :
    argsValid flagsForceOnly = false ∧
    dispatch { flagsNone with force := true } = dispatch flagsNone :=
  ⟨(force_requires_init flagsForceOnly).1 rfl rfl,
    (force_requires_init flagsNone).2.2 rfl true⟩

/-- C7: when the build pipeline is dispatched, every override reaches
the pipeline configuration unchanged: the binary-name, description,
manufacturer, product-name and timestamp values, the optional
positional input path and the sign presence are copied verbatim, and
capture is the negation of `no-capture`. -/
theorem overrides_forwarded (m : Flags) (h1 : m.init = false)
    (h2 : m.print_template = false) :
    dispatch m = Operation.build (buildConfig m) ∧
    (buildConfig m).binary_name = m.binary_name ∧
    (buildConfig m).description = m.description ∧
    (buildConfig m).manufacturer = m.manufacturer ∧
    (buildConfig m).product_name = m.product_name ∧
    (buildConfig m).timestamp = m.timestamp ∧
    (buildConfig m).input = m.input ∧
    (buildConfig m).sign = m.sign ∧
    (buildConfig m).capture_output = !m.no_capture := by
  refine ⟨?_, rfl, rfl, rfl, rfl, rfl, rfl, rfl, rfl⟩
  simp [dispatch, h1, h2]

/-- Witness for C7 at the flag set with every override supplied. -/
theorem overrides_forwarded_witness :
    dispatch flagsAll = Operation.build (buildConfig flagsAll) ∧
    (buildConfig flagsAll).binary_name = flagsAll.binary_name ∧
    (buildConfig flagsAll).description = flagsAll.description ∧
    (buildConfig flagsAll).manufacturer = flagsAll.manufacturer ∧
    (buildConfig flagsAll).product_name = flagsAll.product_name ∧
    (buildConfig flagsAll).timestamp = flagsAll.timestamp ∧
    (buildConfig flagsAll).input = flagsAll.input ∧
    (buildConfig flagsAll).sign = flagsAll.sign ∧
    (buildConfig flagsAll).capture_output = !flagsAll.no_capture :=
  overrides_forwarded flagsAll rfl rfl

/-- C2: with a matched subcommand, an `Ok` result exits with code 0 and
writes nothing to standard error; an `Err` result exits with a code
determined solely by the error kind; the kind-to-code mapping is
injective and never yields 0. -/
theorem exit_code_mapping (m : Flags) (tty : Bool)
    (opResult : Operation → Except WixError Unit) :
    (∀ u, opResult (dispatch m) = Except.ok u →
      runFull (some m) tty opResult = MainOutcome.exited 0 "") ∧
    (∀ e, opResult (dispatch m) = Except.error e →
      runFull (some m) tty opResult =
        MainOutcome.exited (errorCode e.kind) (stderrLine tty e) ∧
      errorCode e.kind ≠ 0) ∧
    (∀ k1 k2 : ErrorKind, errorCode k1 = errorCode k2 → k1 = k2) := by
  refine ⟨?_, ?_, ?_⟩
  · intro u h
    simp [runFull, h]
  · intro e h
    refine ⟨by simp [runFull, h], ?_⟩
    cases e.kind <;> simp [errorCode]
  · intro k1 k2 h
    cases k1 <;> cases k2 <;> first | rfl | exact absurd h (by decide)

/-- Witness for C2 at a concrete flag set and a successful operation. -/
theorem exit_code_mapping_witness :
    runFull (some flagsNone) false (fun _ => Except.ok ()) = MainOutcome.exited 0 "" :=
  (exit_code_mapping flagsNone false (fun _ => Except.ok ())).1 () rfl

/-- The rendering of every error code is free of the escape character
and of newlines (the codes are the single digits 1 through 9). -/
theorem codeStr_clean (k : ErrorKind) :
    esc ∉ (toString (errorCode k)).data ∧ '\n' ∉ (toString (errorCode k)).data := by
  cases k <;> decide

/-- The data of the error tag, written as a concatenation of its
pieces. -/
theorem errorTag_data (e : WixError) :
    (errorTag e).data =
      "Error[".data ++ (toString (errorCode e.kind)).data ++ "] (".data ++
        e.descr.data ++ ")".data := by
  simp [errorTag, String.data_append]

/-- The error tag contains no newline when the description contains
none. -/
theorem errorTag_no_newline (e : WixError) (hd : '\n' ∉ e.descr.data) :
    '\n' ∉ (errorTag e).data := by
  rw [errorTag_data]
  intro h
  rcases List.mem_append.mp h with h1 | h1
  · rcases List.mem_append.mp h1 with h2 | h2
    · rcases List.mem_append.mp h2 with h3 | h3
      · rcases List.mem_append.mp h3 with h4 | h4
        · exact absurd h4 (by decide)
        · exact absurd h4 (codeStr_clean e.kind).2
      · exact absurd h3 (by decide)
    · exact hd h2
  · exact absurd h1 (by decide)

/-- The error tag contains no escape character when the description
contains none. -/
theorem errorTag_no_esc (e : WixError) (hd : esc ∉ e.descr.data) :
    esc ∉ (errorTag e).data := by
  rw [errorTag_data]
  intro h
  rcases List.mem_append.mp h with h1 | h1
  · rcases List.mem_append.mp h1 with h2 | h2
    · rcases List.mem_append.mp h2 with h3 | h3
      · rcases List.mem_append.mp h3 with h4 | h4
        · exact absurd h4 (by decide)
        · exact absurd h4 (codeStr_clean e.kind).1
      · exact absurd h3 (by decide)
    · exact hd h2
  · exact absurd h1 (by decide)

/-- The data of the stderr line, written as a concatenation of the tag
part and the remaining pieces. -/
theorem stderrLine_data (tty : Bool) (e : WixError) :
    (stderrLine tty e).data =
      (if tty then paintRed (errorTag e) else errorTag e).data ++ ": ".data ++
        e.message.data ++ "\n".data := by
  simp [stderrLine, String.data_append]

/-- The data of the painted tag. -/
theorem paintRed_data (s : String) :
    (paintRed s).data = "\x1b[38;5;9m".data ++ s.data ++ "\x1b[0m".data := by
  simp [paintRed, String.data_append]

/-- C3: the bytes written to standard error on an error outcome form
exactly one line (one newline, at the end); the line contains the
machine-stable error code, the description and the human-readable
message; and it contains ANSI colour escapes exactly when standard
error is an interactive terminal.  The hypotheses state that the
library-supplied description and message texts contain no raw escape
character and no newline. -/
theorem error_line_format (tty : Bool) (e : WixError)
    (hd1 : esc ∉ e.descr.data) (hm1 : esc ∉ e.message.data)
    (hd2 : '\n' ∉ e.descr.data) (hm2 : '\n' ∉ e.message.data) :
    (stderrLine tty e).data.count '\n' = 1 ∧
    (toString (errorCode e.kind)).data <:+: (stderrLine tty e).data ∧
    e.descr.data <:+: (stderrLine tty e).data ∧
    e.message.data <:+: (stderrLine tty e).data ∧
    (esc ∈ (stderrLine tty e).data ↔ tty = true) := by
  refine ⟨?_, ?_, ?_, ?_, ?_⟩
  · have htag : (if tty then paintRed (errorTag e) else errorTag e).data.count '\n' = 0 := by
      cases tty
      · rw [if_neg (by decide)]
        exact List.count_eq_zero.mpr (errorTag_no_newline e hd2)
      · rw [if_pos rfl, paintRed_data, List.count_append, List.count_append,
          List.count_eq_zero.mpr (errorTag_no_newline e hd2)]
        decide
    rw [stderrLine_data, List.count_append, List.count_append, List.count_append,
      htag, List.count_eq_zero.mpr hm2]
    decide
  · cases tty
    · rw [stderrLine_data, if_neg (by decide), errorTag_data]
      exact ⟨"Error[".data,
        "] (".data ++ e.descr.data ++ ")".data ++ ": ".data ++ e.message.data ++ "\n".data,
        by simp [List.append_assoc]⟩
    · rw [stderrLine_data, if_pos rfl, paintRed_data, errorTag_data]
      exact ⟨"\x1b[38;5;9m".data ++ "Error[".data,
        "] (".data ++ e.descr.data ++ ")".data ++ "\x1b[0m".data ++ ": ".data ++
          e.message.data ++ "\n".data,
        by simp [List.append_assoc]⟩
  · cases tty
    · rw [stderrLine_data, if_neg (by decide), errorTag_data]
      exact ⟨"Error[".data ++ (toString (errorCode e.kind)).data ++ "] (".data,
        ")".data ++ ": ".data ++ e.message.data ++ "\n".data,
        by simp [List.append_assoc]⟩
    · rw [stderrLine_data, if_pos rfl, paintRed_data, errorTag_data]
      exact ⟨"\x1b[38;5;9m".data ++ "Error[".data ++ (toString (errorCode e.kind)).data ++
          "] (".data,
        ")".data ++ "\x1b[0m".data ++ ": ".data ++ e.message.data ++ "\n".data,
        by simp [List.append_assoc]⟩
  · cases tty
    · rw [stderrLine_data, if_neg (by decide), errorTag_data]
      exact ⟨"Error[".data ++ (toString (errorCode e.kind)).data ++ "] (".data ++
          e.descr.data ++ ")".data ++ ": ".data,
        "\n".data, by simp [List.append_assoc]⟩
    · rw [stderrLine_data, if_pos rfl, paintRed_data, errorTag_data]
      exact ⟨"\x1b[38;5;9m".data ++ "Error[".data ++ (toString (errorCode e.kind)).data ++
          "] (".data ++ e.descr.data ++ ")".data ++ "\x1b[0m".data ++ ": ".data,
        "\n".data, by simp [List.append_assoc]⟩
  · cases tty
    · refine iff_of_false ?_ (by decide)
      rw [stderrLine_data, if_neg (by decide)]
      intro h
      rcases List.mem_append.mp h with h1 | h1
      · rcases List.mem_append.mp h1 with h2 | h2
        · rcases List.mem_append.mp h2 with h3 | h3
          · exact errorTag_no_esc e hd1 h3
          · exact absurd h3 (by decide)
        · exact hm1 h2
      · exact absurd h1 (by decide)
    · refine iff_of_true ?_ rfl
      rw [stderrLine_data, if_pos rfl, paintRed_data]
      refine List.mem_append.mpr (Or.inl ?_)
      refine List.mem_append.mpr (Or.inl ?_)
      refine List.mem_append.mpr (Or.inl ?_)
      refine List.mem_append.mpr (Or.inl ?_)
      exact List.mem_append.mpr (Or.inl (by decide))

/-- A concrete library error used in witnesses. -/
def exampleErr : WixError :=
  { kind := ErrorKind.toolNotFound, descr := "tool not found",
    message := "the compiler candle.exe could not be located" }

/-- Witness for C3 at a concrete error and an interactive terminal. -/
theorem error_line_format_witness :
    (stderrLine true exampleErr).data.count '\n' = 1 ∧
    (toString (errorCode exampleErr.kind)).data <:+: (stderrLine true exampleErr).data ∧
    exampleErr.descr.data <:+: (stderrLine true exampleErr).data ∧
    exampleErr.message.data <:+: (stderrLine true exampleErr).data ∧
    (esc ∈ (stderrLine true exampleErr).data ↔ true = true) :=
  error_line_format true exampleErr (by decide) (by decide) (by decide) (by decide)

/-- C8 counterexample: the claim says verbosity is passed as explicit
configuration into the pipeline constructor rather than installed as
process-global singleton state.  In the code the opposite holds at this
concrete input: after setup the global logger is installed (mutated
away from its uninstalled state), while two flag sets differing only in
verbosity dispatch to identical pipeline configurations, so verbosity
never reaches the constructor. -/
theorem verbosity_counterexample :
    (runMain flagsVerbose5).1 ≠ GlobalLogger.uninstalled ∧
    flagsNone.verbose ≠ flagsVerbose5.verbose ∧
    dispatch flagsNone = dispatch flagsVerbose5 := by
  refine ⟨?_, by decide, rfl⟩
  intro h
  simp [runMain] at h

/-- C8 amended: verbosity is consumed at the CLI layer by installing a
process-global logger singleton before dispatch; it is not part of the
configuration handed to the pipeline, whose dispatched operation is
invariant under the verbosity level. -/
theorem verbosity_global_logger (m : Flags) (v : Nat) :
    (runMain m).1 = GlobalLogger.installed (setupLogger m.verbose) ∧
    (runMain m).2 = dispatch m ∧
    dispatch { m with verbose := v } = dispatch m := by
  refine ⟨rfl, rfl, ?_⟩
  rcases m with ⟨b, d, f, i, mf, nc, pt, pn, s, ts, v0, inp⟩
  rfl

/-- C10: when the argument parser did not match the `wix` subcommand,
the unconditional unwrap panics: the run produces neither an exit code
nor a formatted stderr line, for every terminal state and every
possible operation outcome. -/
theorem missing_subcommand_panics (tty : Bool)
    (opResult : Operation → Except WixError Unit) :
    runFull none tty opResult = MainOutcome.panicked ∧
    ∀ c s, runFull none tty opResult ≠ MainOutcome.exited c s := by
  refine ⟨rfl, ?_⟩
  intro c s h
  simp [runFull] at h

end CargoWix
